import Mathlib

set_option maxRecDepth 4096

/-!
Shallow embedding of `src/sockem.c` (socket-level network emulation):
the configuration model and keyed setter (`sockem_set0`, `sockem_vset`),
the forwarder-thread run-state machine and loop (`sockem_run`,
`sockem_calc_waittime`, `sockem_recv_fwd`), and the teardown protocol
(`sockem_close`, `sockem_close_all`), together with theorems checking the
specification's claims about them.
-/

namespace Sockem

/-- Characters of a string literal; C strings are modelled as `List Char`
(NUL-free contents). -/
def str (s : String) : List Char := s.data

/-- Digit-accumulation loop of C `atoi`: consume leading decimal digits,
stop at the first non-digit. -/
def atoi_go : List Char → Int → Int
  | c :: rest, acc =>
      if c.isDigit then atoi_go rest (acc * 10 + ((c.toNat - 48 : Nat) : Int))
      else acc
  | [], acc => acc

/-- C `atoi`: skip leading whitespace, optional sign, then a decimal digit
run; returns 0 when no digits are present. -/
def atoi (s : List Char) : Int :=
  let s1 := s.dropWhile (fun c =>
    c = ' ' ∨ c = '\t' ∨ c = '\n' ∨ c = '\x0b' ∨ c = '\x0c' ∨ c = '\r')
  match s1 with
  | '-' :: rest => - atoi_go rest 0
  | '+' :: rest => atoi_go rest 0
  | _ => atoi_go s1 0

/-- `struct sockem_conf` (sockem.c lines 89-97).  The C `int` fields are
embedded as `Int` (no arithmetic in the setter can overflow them); the
C `size_t bufsz` field is embedded as `Nat`, and an `int` value stored
into it is converted modulo 2^64 as in C. -/
structure sockem_conf where
  tx_thruput : Int   -- app->peer bytes/second (unimplemented passthrough)
  rx_thruput : Int   -- peer->app bytes/second (unimplemented passthrough)
  delay : Int        -- latency in ms
  jitter : Int       -- latency variation in ms
  debug : Int        -- enable sockem printf debugging
  bufsz : Nat        -- recv chunk/buffer size (size_t)
deriving DecidableEq

/-- `size_t` conversion of a C `int` value (modulo 2^64). -/
def toSizeT (v : Int) : Nat := (v % (2 ^ 64 : Int)).toNat

/-- Split a character list at the first occurrence of `c`
(C `strchr` followed by overwriting that position with NUL):
returns the part strictly before `c` and the part strictly after it,
or `none` when `c` does not occur. -/
def splitAtFirst (c : Char) : List Char → Option (List Char × List Char)
  | [] => none
  | x :: xs =>
      if x = c then some ([], xs)
      else match splitAtFirst c xs with
           | none => none
           | some (p, q) => some (x :: p, q)

theorem splitAtFirst_length {c : Char} :
    ∀ {s p q : List Char}, splitAtFirst c s = some (p, q) → p.length < s.length := by
  intro s
  induction s with
  | nil => intro p q h; simp [splitAtFirst] at h
  | cons x xs ih =>
      intro p q h
      by_cases hx : x = c
      · simp [splitAtFirst, hx] at h
        simp [h.1]
      · simp [splitAtFirst, hx] at h
        rcases h2 : splitAtFirst c xs with _ | ⟨p', q'⟩
        · rw [h2] at h; simp at h
        · rw [h2] at h
          simp at h
          have := ih h2
          simp [← h.1]
          omega

theorem splitAtFirst_none_of_not_contains {c : Char} :
    ∀ {s : List Char}, s.contains c = false → splitAtFirst c s = none := by
  intro s
  induction s with
  | nil => intro _; rfl
  | cons x xs ih =>
      intro h
      simp [List.contains_cons] at h
      have hx : ¬ x = c := fun he => h.1 he.symm
      simp [splitAtFirst, hx, ih (by simpa using h.2)]

/-- `sockem_set0` (sockem.c lines 472-510): set a single conf key,
returning `none` for the C return value -1 (unknown key) and
`some conf2` for 0.

The C function mutates `skm->conf` in place; on every path that returns
-1 no field has been assigned, so the pure `Option` result is faithful.

The final `else if (!strchr(key, ','))` branch runs the `key=value`
parse loop only on keys that contain no comma.  Inside that loop
`t = strchr(s, ',')` is therefore always NULL, so `if (t) *t = '\0'`
does nothing, the `s += 1` continuation is unreachable, and the loop
body executes at most once before hitting `if (!t) break`.  An empty
key skips the `while (*s)` loop entirely and returns 0.  The loop body
splits at the first `'='` (`d = strchr(s, '=')`; no `'='` returns -1)
and recurses with the part before `'='` as key and `atoi` of the part
after it as value. -/
def sockem_set0 (conf : sockem_conf) (key : List Char) (val : Int) :
    Option sockem_conf :=
  if key = str "rx.thruput" ∨ key = str "rx.throughput" then
    some { conf with rx_thruput := val }
  else if key = str "tx.thruput" ∨ key = str "tx.throughput" then
    some { conf with tx_thruput := val }
  else if key = str "delay" then
    some { conf with delay := val }
  else if key = str "jitter" then
    some { conf with jitter := val }
  else if key = str "rx.bufsz" then
    some { conf with bufsz := toSizeT val }
  else if key = str "debug" then
    some { conf with debug := val }
  else if key = str "true" then
    some conf  -- dummy key for allowing non-empty but default config
  else if key.contains ',' = false then
    match h : splitAtFirst '=' key with
    | none => if key = [] then some conf else none
    | some (s, d) => sockem_set0 conf s (atoi d)
  else
    none
termination_by key.length
decreasing_by
  exact splitAtFirst_length h

/-- `sockem_vset` (sockem.c lines 516-531): apply an ordered sequence of
`(key, value)` pairs (the NULL-terminated varargs list), stopping at the
first failing pair.  The C function mutates `skm->conf` in place under
`skm->lock`; the returned pair is (resulting conf, success flag), where
on failure the resulting conf is the one reached by the pairs applied
before the failing one (they are NOT rolled back). -/
def sockem_vset (conf : sockem_conf) :
    List (List Char × Int) → sockem_conf × Bool
  | [] => (conf, true)
  | (k, v) :: rest =>
      match sockem_set0 conf k v with
      | none => (conf, false)
      | some conf2 => sockem_vset conf2 rest

/-- Apply a list of pairs through `sockem_set0`, keeping the old conf on a
failing pair (used to describe `sockem_vset`'s partial-application
behaviour). -/
def applyPairs (conf : sockem_conf) (ps : List (List Char × Int)) : sockem_conf :=
  ps.foldl (fun c p => (sockem_set0 c p.1 p.2).getD c) conf

/-- Default configuration installed by `sockem_connect`
(sockem.c lines 385 and 391-396): `calloc` zeroes the whole struct,
then the listed fields are assigned. -/
def sockem_connect_default_conf : sockem_conf :=
  let zeroed : sockem_conf :=
    { tx_thruput := 0, rx_thruput := 0, delay := 0, jitter := 0,
      debug := 0, bufsz := 0 }
  { zeroed with
      rx_thruput := 1 <<< 30, tx_thruput := 1 <<< 30,
      delay := 0, jitter := 0, bufsz := 1024 * 1024 }

/-- Configuration of a session as produced by `sockem_connect`
(sockem.c lines 398-405): the defaults with the caller-supplied pairs
applied through `sockem_vset`; if that fails the session is closed and
`sockem_connect` returns NULL (`none`). -/
def sockem_connect_conf (pairs : List (List Char × Int)) : Option sockem_conf :=
  match sockem_vset sockem_connect_default_conf pairs with
  | (conf2, true) => some conf2
  | (_, false) => none

/-- Forwarder-thread run states (sockem.c lines 105-111). -/
inductive RunState
  | INIT
  | START
  | RUN
  | TERM
deriving DecidableEq, Fintype

/-- `sockem_calc_waittime` (sockem.c lines 161-167): maximum poll wait in
ms computed from the thread's active config snapshot `skm->use`. -/
def sockem_calc_waittime (use : sockem_conf) : Int :=
  if use.delay + use.jitter = 0 then 1000
  else if use.jitter < use.delay then use.jitter else use.delay

/-- Thread-visible state of the `sockem_run` poll loop: the run state,
the active config snapshot `skm->use`, and the `waittime` local
variable. -/
structure sockem_run_loop_state where
  run : RunState
  use : sockem_conf
  waittime : Int
deriving DecidableEq

/-- Entry of `sockem_run` up to the top of the poll loop
(sockem.c lines 239-272): promote START to RUN only if still START,
snapshot `use := conf`, and compute `waittime` once, before the loop. -/
def sockem_run_start (run0 : RunState) (conf : sockem_conf) :
    sockem_run_loop_state :=
  let run1 := if run0 = RunState.START then RunState.RUN else run0
  let use := conf
  { run := run1, use := use, waittime := sockem_calc_waittime use }

/-- End of one iteration of the `sockem_run` poll loop
(sockem.c lines 299-300): re-snapshot `use := conf` under the lock.
The `waittime` local is NOT recomputed anywhere inside the loop. -/
def sockem_run_iterate (s : sockem_run_loop_state) (conf : sockem_conf) :
    sockem_run_loop_state :=
  { s with use := conf }

/-- The timeout passed to `poll` in an iteration (sockem.c line 280). -/
def sockem_poll_timeout (s : sockem_run_loop_state) : Int := s.waittime

/-- The poll-loop guard `while (skm->run == SOCKEM_RUN)`
(sockem.c line 275). -/
def sockem_run_loop_guard (r : RunState) : Bool := r = RunState.RUN

/-- The sites in the source that write the run state of a live session. -/
inductive RunWrite
  | thread_promote     -- sockem_run lines 240-241
  | poll_hup_term      -- sockem_run line 287 (POLLHUP/POLLERR)
  | recv_fwd_fail_term -- sockem_run line 293 (sockem_recv_fwd == -1)
  | close_all_term     -- sockem_close_all line 222
  | close_request_term -- sockem_close lines 446-450
deriving DecidableEq, Fintype

/-- Effect of each run-state write site on the run state.
`close_request_term` covers both branches of `sockem_close`: when the
state is START or RUN it assigns TERM directly, otherwise it calls
`sockem_close_all`, which also assigns TERM. -/
def sockem_run_write : RunWrite → RunState → RunState
  | RunWrite.thread_promote, r =>
      if r = RunState.START then RunState.RUN else r
  | RunWrite.poll_hup_term, _ => RunState.TERM
  | RunWrite.recv_fwd_fail_term, _ => RunState.TERM
  | RunWrite.close_all_term, _ => RunState.TERM
  | RunWrite.close_request_term, r =>
      if r = RunState.START ∨ r = RunState.RUN then RunState.TERM
      else RunState.TERM

/-- Outcome of the nonblocking `recv` in `sockem_recv_fwd`
(sockem.c line 179). -/
inductive RecvResult
  | errWouldBlock                -- r == -1, errno EAGAIN/EWOULDBLOCK
  | errOther                     -- r == -1, any other errno
  | closed                       -- r == 0
  | data (bytes : List Nat)      -- r > 0: the bytes placed in skm->buf
deriving DecidableEq

/-- Observable effect of one `sockem_recv_fwd` call: the requested
`usleep` microseconds (`none` when `usleep` is not called), the bytes
passed to `send` on the opposite descriptor (`none` when `send` is not
called), and the C return value. -/
structure FwdEffect where
  sleep_us : Option Int
  sent : Option (List Nat)
  ret : Int
deriving DecidableEq

/-- The per-chunk delay computed in `sockem_recv_fwd`
(sockem.c line 192): `skm->use.delay + (skm->use.jitter / 2)` with C
signed division (truncation toward zero). -/
def sockem_fwd_delay (use : sockem_conf) : Int :=
  use.delay + use.jitter.tdiv 2

/-- `sockem_recv_fwd` (sockem.c lines 175-201).  `sendResult` is the
value returned by the `send` call when it is reached (the number of
bytes written, at most the requested length). -/
def sockem_recv_fwd (use : sockem_conf) (r : RecvResult) (sendResult : Int) :
    FwdEffect :=
  match r with
  | RecvResult.errWouldBlock => { sleep_us := none, sent := none, ret := 0 }
  | RecvResult.errOther => { sleep_us := none, sent := none, ret := -1 }
  | RecvResult.closed => { sleep_us := none, sent := none, ret := -1 }
  | RecvResult.data bs =>
      let delay := sockem_fwd_delay use
      let sleep := if delay = 0 then none else some (delay * 1000)
      if sendResult < (bs.length : Int) then
        { sleep_us := sleep, sent := some bs, ret := -1 }
      else
        { sleep_us := sleep, sent := some bs, ret := sendResult }

/-- Handling of the `sockem_recv_fwd` return value inside the poll loop
(sockem.c lines 290-295): -1 sets the run state to TERM. -/
def sockem_run_handle_fwd (ret : Int) (r : RunState) : RunState :=
  if ret = -1 then RunState.TERM else r

/-- The descriptors a session touches, named by the struct field holding
them: `as` (application socket), `ls` (internal listener), `ps`
(internal peer socket), and the thread-local accepted connection `cs`. -/
inductive FdName
  | app
  | listener
  | peer
  | accepted
deriving DecidableEq, BEq, Fintype

/-- Descriptors closed by `sockem_close_all` (sockem.c lines 209-225):
`ls` and `ps`, each only when not already -1. -/
def sockem_close_all_closed (lsOpen psOpen : Bool) : List FdName :=
  (if lsOpen then [FdName.listener] else []) ++
  (if psOpen then [FdName.peer] else [])

/-- Descriptors closed on the exit path of `sockem_run`
(sockem.c lines 302-305): `cs` when not -1, then `sockem_close_all`. -/
def sockem_run_exit_closed (csOpen lsOpen psOpen : Bool) : List FdName :=
  (if csOpen then [FdName.accepted] else []) ++
  sockem_close_all_closed lsOpen psOpen

/-- Descriptors closed directly by `sockem_close`
(sockem.c lines 440-464): none when the thread is in START or RUN
(it only requests termination), otherwise those of `sockem_close_all`. -/
def sockem_close_closed (run : RunState) (lsOpen psOpen : Bool) : List FdName :=
  if run = RunState.START ∨ run = RunState.RUN then []
  else sockem_close_all_closed lsOpen psOpen

/-- Descriptors closed on each failure path of `sockem_connect`
(sockem.c lines 354-382): bind, getsockname and listen failures close
`ls`; a peer-socket creation failure closes `ls`; a peer connect
failure closes `ls` and `ps`. -/
def sockem_connect_fail_closed : List (List FdName) :=
  [[FdName.listener], [FdName.listener], [FdName.listener],
   [FdName.listener], [FdName.listener, FdName.peer]]

/-- The ordered actions performed by `sockem_close`
(sockem.c lines 440-464). -/
inductive CloseAction
  | setTerm             -- skm->run = SOCKEM_TERM
  | closeFd (fd : FdName)  -- sockem_close0(...)
  | unregister          -- LIST_REMOVE(skm, link)
  | joinThread          -- thrd_join(skm->thrd, NULL)
  | destroyLock         -- mtx_destroy(&skm->lock)
  | freeSession         -- free(skm)
deriving DecidableEq, BEq

/-- Action sequence of `sockem_close_all` (sockem.c lines 209-225). -/
def sockem_close_all_actions (lsOpen psOpen : Bool) : List CloseAction :=
  (if lsOpen then [CloseAction.closeFd FdName.listener] else []) ++
  (if psOpen then [CloseAction.closeFd FdName.peer] else []) ++
  [CloseAction.setTerm]

/-- Action sequence of `sockem_close` (sockem.c lines 440-464) on a
session whose run state is `run`, registry linkage is `linked`, and
whose `ls`/`ps` descriptors are still open as given. -/
def sockem_close_actions (run : RunState) (linked lsOpen psOpen : Bool) :
    List CloseAction :=
  (if run = RunState.START ∨ run = RunState.RUN then [CloseAction.setTerm]
   else sockem_close_all_actions lsOpen psOpen) ++
  (if linked then [CloseAction.unregister] else []) ++
  [CloseAction.joinThread, CloseAction.destroyLock, CloseAction.freeSession]

/-- `a` occurs in `l` strictly before (the first occurrence of) `b`. -/
def actBefore (l : List CloseAction) (a b : CloseAction) : Bool :=
  l.contains a && l.contains b && decide (l.indexOf a < l.indexOf b)

/-- The key strings `sockem_set0` recognizes by name
(sockem.c lines 473-488), including the dummy key `"true"`. -/
def sockem_known_keys : List (List Char) :=
  [str "rx.thruput", str "rx.throughput", str "tx.thruput",
   str "tx.throughput", str "delay", str "jitter", str "rx.bufsz",
   str "debug", str "true"]

/-- Claim C9: every session created by `sockem_connect` starts from the
default configuration before the caller-supplied pairs are applied:
rx throughput cap 2^30, tx throughput cap 2^30, delay 0, jitter 0,
receive buffer 1 MiB; applying no pairs leaves exactly this
configuration. -/
theorem sockem_connect_starts_from_defaults :
    sockem_connect_default_conf.rx_thruput = 2 ^ 30 ∧
    sockem_connect_default_conf.tx_thruput = 2 ^ 30 ∧
    sockem_connect_default_conf.delay = 0 ∧
    sockem_connect_default_conf.jitter = 0 ∧
    sockem_connect_default_conf.bufsz = 1024 * 1024 ∧
    sockem_connect_conf [] = some sockem_connect_default_conf := by
  refine ⟨by decide, by decide, by decide, by decide, by decide, rfl⟩

/-- Claim C7: no operation of the system closes the application socket
descriptor `as`: the descriptors closed by `sockem_close_all`, by the
`sockem_run` exit path, by `sockem_close`, and by every failure path of
`sockem_connect` are only the internal listener, peer, and
accepted-connection descriptors. -/
theorem sockem_app_fd_never_closed :
    ∀ (run : RunState) (csOpen lsOpen psOpen : Bool),
      (sockem_close_all_closed lsOpen psOpen).contains FdName.app = false ∧
      (sockem_run_exit_closed csOpen lsOpen psOpen).contains FdName.app = false ∧
      (sockem_close_closed run lsOpen psOpen).contains FdName.app = false ∧
      sockem_connect_fail_closed.all
        (fun l => ! l.contains FdName.app) = true := by
  decide

/-- Claim C6: the run-state machine of `sockem_run`: a state becomes RUN
only through the thread's promotion of a state that was still START
(in particular a TERM set by a concurrent close is not overwritten);
TERM is absorbing under every run-state write of the forwarder and of
the close path; and from TERM the poll-loop guard is false, so the loop
exits. -/
theorem sockem_run_state_machine :
    ∀ (w : RunWrite) (r : RunState),
      (sockem_run_write w r = RunState.RUN →
        (r = RunState.START ∧ w = RunWrite.thread_promote) ∨ r = RunState.RUN) ∧
      (r = RunState.TERM → sockem_run_write w r = RunState.TERM) ∧
      (r = RunState.TERM → sockem_run_loop_guard r = false) := by
  decide

/-- Witness for `sockem_run_state_machine`: the thread's promotion step
applied to an already-terminated session leaves it terminated and the
loop guard false. -/
theorem sockem_run_state_machine_witness :
    sockem_run_write RunWrite.thread_promote RunState.TERM = RunState.TERM ∧
    sockem_run_loop_guard RunState.TERM = false :=
  ⟨(sockem_run_state_machine RunWrite.thread_promote RunState.TERM).2.1 rfl,
   (sockem_run_state_machine RunWrite.thread_promote RunState.TERM).2.2 rfl⟩

/-- Claim C3 is a code bug: `sockem_run` computes `waittime` once,
before entering the poll loop (line 272), and never recomputes it
inside the loop, so a caller's change of delay/jitter does not change
the poll timeout of later iterations.  Starting from the default config
(delay 0, jitter 0, so waittime 1000) and changing the config to
delay 5, jitter 5, the next iteration still polls with timeout 1000
although `sockem_calc_waittime` of its own (updated) active snapshot is
min(5, 5) = 5. -/
theorem sockem_run_waittime_stale :
    sockem_poll_timeout
        (sockem_run_iterate
          (sockem_run_start RunState.START sockem_connect_default_conf)
          { sockem_connect_default_conf with delay := 5, jitter := 5 })
      = 1000 ∧
    (sockem_run_iterate
        (sockem_run_start RunState.START sockem_connect_default_conf)
        { sockem_connect_default_conf with delay := 5, jitter := 5 }).use
      = { sockem_connect_default_conf with delay := 5, jitter := 5 } ∧
    sockem_calc_waittime
        { sockem_connect_default_conf with delay := 5, jitter := 5 } = 5 := by
  refine ⟨rfl, rfl, by decide⟩

/-- Claim C5: `sockem_close` (1) only requests termination when the
thread is in START or RUN, closing no descriptor itself, and otherwise
closes the internal descriptors itself; (2) removes a linked session
from the registry before freeing the session memory; (3) joins the
forwarder thread before destroying the lock, which happens before
freeing the session. -/
theorem sockem_close_protocol :
    ∀ (run : RunState) (linked lsOpen psOpen : Bool),
      ((run = RunState.START ∨ run = RunState.RUN) →
        (∀ fd, (sockem_close_actions run linked lsOpen psOpen).contains
            (CloseAction.closeFd fd) = false) ∧
        (sockem_close_actions run linked lsOpen psOpen).contains
          CloseAction.setTerm = true) ∧
      (¬(run = RunState.START ∨ run = RunState.RUN) →
        (lsOpen = true → (sockem_close_actions run linked lsOpen psOpen).contains
            (CloseAction.closeFd FdName.listener) = true) ∧
        (psOpen = true → (sockem_close_actions run linked lsOpen psOpen).contains
            (CloseAction.closeFd FdName.peer) = true)) ∧
      (linked = true →
        actBefore (sockem_close_actions run linked lsOpen psOpen)
          CloseAction.unregister CloseAction.freeSession = true) ∧
      actBefore (sockem_close_actions run linked lsOpen psOpen)
        CloseAction.joinThread CloseAction.destroyLock = true ∧
      actBefore (sockem_close_actions run linked lsOpen psOpen)
        CloseAction.destroyLock CloseAction.freeSession = true := by
  decide

/-- Witness for `sockem_close_protocol`, on a linked running session and
on a linked already-terminated session with both internal descriptors
open. -/
theorem sockem_close_protocol_witness :
    (sockem_close_actions RunState.RUN true true true).contains
      CloseAction.setTerm = true ∧
    actBefore (sockem_close_actions RunState.RUN true true true)
      CloseAction.unregister CloseAction.freeSession = true ∧
    actBefore (sockem_close_actions RunState.TERM true true true)
      CloseAction.joinThread CloseAction.destroyLock = true ∧
    (sockem_close_actions RunState.TERM true true true).contains
      (CloseAction.closeFd FdName.listener) = true :=
  ⟨((sockem_close_protocol RunState.RUN true true true).1 (Or.inr rfl)).2,
   (sockem_close_protocol RunState.RUN true true true).2.2.1 rfl,
   (sockem_close_protocol RunState.TERM true true true).2.2.2.1,
   (((sockem_close_protocol RunState.TERM true true true).2.1
      (by decide)).1 rfl)⟩

/-- Claim C4: a would-block read is a no-op returning success (no sleep,
no send); a zero-byte read or any other read error returns -1
(terminating the session); on a successful read of the byte list `bs`
(nonempty, r > 0) the forwarder requests a sleep of
`delay + jitter/2` milliseconds (no usleep call when that sum is 0)
and passes exactly `bs` to `send` on the opposite descriptor; a short
write returns -1, which the poll loop turns into TERM, and a full
write returns the written length. -/
theorem sockem_recv_fwd_relay :
    ∀ (use : sockem_conf) (bs : List Nat) (wr : Int),
      sockem_recv_fwd use RecvResult.errWouldBlock wr
        = { sleep_us := none, sent := none, ret := 0 } ∧
      (sockem_recv_fwd use RecvResult.closed wr).ret = -1 ∧
      (sockem_recv_fwd use RecvResult.errOther wr).ret = -1 ∧
      (bs ≠ [] →
        (sockem_recv_fwd use (RecvResult.data bs) wr).sent = some bs ∧
        (sockem_recv_fwd use (RecvResult.data bs) wr).sleep_us
          = (if use.delay + use.jitter.tdiv 2 = 0 then none
             else some ((use.delay + use.jitter.tdiv 2) * 1000)) ∧
        (wr < (bs.length : Int) →
          (sockem_recv_fwd use (RecvResult.data bs) wr).ret = -1 ∧
          sockem_run_handle_fwd
            (sockem_recv_fwd use (RecvResult.data bs) wr).ret RunState.RUN
            = RunState.TERM) ∧
        ((bs.length : Int) ≤ wr →
          (sockem_recv_fwd use (RecvResult.data bs) wr).ret = wr)) := by
  intro use bs wr
  refine ⟨rfl, rfl, rfl, fun _ => ?_⟩
  by_cases hwr : wr < (bs.length : Int)
  · simp [sockem_recv_fwd, sockem_fwd_delay, sockem_run_handle_fwd, hwr]
  · simp [sockem_recv_fwd, sockem_fwd_delay, sockem_run_handle_fwd, hwr]

/-- Witness for `sockem_recv_fwd_relay`: relaying the two bytes
`[104, 105]` with a full write of length 2 sends them unchanged, and a
short write of 1 returns -1. -/
theorem sockem_recv_fwd_relay_witness :
    ([104, 105] : List Nat) ≠ [] ∧
    (sockem_recv_fwd sockem_connect_default_conf
        (RecvResult.data [104, 105]) 2).sent = some [104, 105] ∧
    (sockem_recv_fwd sockem_connect_default_conf
        (RecvResult.data [104, 105]) 2).ret = 2 ∧
    (sockem_recv_fwd sockem_connect_default_conf
        (RecvResult.data [104, 105]) 1).ret = -1 :=
  ⟨by decide,
   ((sockem_recv_fwd_relay sockem_connect_default_conf [104, 105] 2).2.2.2
      (by decide)).1,
   ((sockem_recv_fwd_relay sockem_connect_default_conf [104, 105] 2).2.2.2
      (by decide)).2.2.2 (by decide),
   (((sockem_recv_fwd_relay sockem_connect_default_conf [104, 105] 1).2.2.2
      (by decide)).2.2.1 (by decide)).1⟩

/-- Claim C1 is a code bug: the guard of the bulk-string branch of
`sockem_set0` (line 489) is `!strchr(key, ',')`, so every bulk string
that actually contains a comma is rejected with -1 by the final `else`,
leaving the configuration unchanged, while the comma-splitting loop
inside the branch is unreachable dead code.  On the failing input
`"delay=50,jitter=10"` the bulk call fails, whereas the typed pairs
`(delay,50)`, `(jitter,10)` succeed and yield delay 50, jitter 10, so
the two forms do not agree as the claim requires. -/
theorem sockem_set0_bulk_string_rejected :
    sockem_set0 sockem_connect_default_conf (str "delay=50,jitter=10") 0
      = none ∧
    sockem_vset sockem_connect_default_conf
        [(str "delay=50,jitter=10", 0)]
      = (sockem_connect_default_conf, false) ∧
    sockem_vset sockem_connect_default_conf
        [(str "delay", 50), (str "jitter", 10)]
      = ({ sockem_connect_default_conf with delay := 50, jitter := 10 },
         true) ∧
    sockem_set0 sockem_connect_default_conf (str "delay=50") 0
      = some { sockem_connect_default_conf with delay := 50 } := by
  have h1 : sockem_set0 sockem_connect_default_conf
      (str "delay=50,jitter=10") 0 = none := by
    simp [sockem_set0, str]
  refine ⟨h1, ?_, ?_, ?_⟩
  · simp [sockem_vset, h1]
  · simp [sockem_vset, sockem_set0, str]
  · simp [sockem_set0, str, splitAtFirst, atoi, atoi_go]

/-- Claim C2 counterexample: the pair sequence `(delay,50), (bogus,1)`
makes `sockem_vset` return an error, yet the resulting configuration is
not the original one — the earlier pair `delay := 50` remains applied,
and the forwarder's next snapshot (`skm->use = skm->conf`, line 300)
observes it. -/
theorem sockem_vset_not_atomic_cex :
    (sockem_vset sockem_connect_default_conf
        [(str "delay", 50), (str "bogus", 1)]).2 = false ∧
    (sockem_vset sockem_connect_default_conf
        [(str "delay", 50), (str "bogus", 1)]).1
      = { sockem_connect_default_conf with delay := 50 } ∧
    { sockem_connect_default_conf with delay := 50 }
      ≠ sockem_connect_default_conf ∧
    (sockem_run_iterate
        (sockem_run_start RunState.START sockem_connect_default_conf)
        (sockem_vset sockem_connect_default_conf
          [(str "delay", 50), (str "bogus", 1)]).1).use.delay = 50 := by
  have hd : sockem_set0 sockem_connect_default_conf (str "delay") 50
      = some { sockem_connect_default_conf with delay := 50 } := by
    simp [sockem_set0, str]
  have hb : ∀ c : sockem_conf, sockem_set0 c (str "bogus") 1 = none := by
    intro c; simp [sockem_set0, str, splitAtFirst]
  have hv : sockem_vset sockem_connect_default_conf
      [(str "delay", 50), (str "bogus", 1)]
      = ({ sockem_connect_default_conf with delay := 50 }, false) := by
    simp [sockem_vset, hd, hb]
  refine ⟨by rw [hv], by rw [hv], by decide, by rw [hv]; rfl⟩

/-- Claim C2 as amended: if some pair of the sequence is invalid,
`sockem_vset` returns an error and the invalid pair itself causes no
change, but the valid pairs before it remain applied — the setter
mutates the configuration in place under the session lock instead of
applying the sequence to a local copy and swapping it in on full
success. -/
theorem sockem_vset_error_keeps_earlier_pairs :
    ∀ (pre : List (List Char × Int)) (conf : sockem_conf) (k : List Char)
      (v : Int) (rest : List (List Char × Int)),
      (∀ p ∈ pre, ∀ c : sockem_conf, (sockem_set0 c p.1 p.2).isSome = true) →
      (∀ c : sockem_conf, sockem_set0 c k v = none) →
      sockem_vset conf (pre ++ (k, v) :: rest)
        = (applyPairs conf pre, false) := by
  intro pre
  induction pre with
  | nil =>
      intro conf k v rest _ hbad
      simp [sockem_vset, applyPairs, hbad conf]
  | cons p ps ih =>
      intro conf k v rest hok hbad
      have hp := hok p (by simp) conf
      rcases hsome : sockem_set0 conf p.1 p.2 with _ | c2
      · rw [hsome] at hp; simp at hp
      · have := ih c2 k v rest (fun q hq c => hok q (by simp [hq]) c) hbad
        simpa [sockem_vset, hsome, applyPairs] using this

/-- Witness for `sockem_vset_error_keeps_earlier_pairs`: applying
`(delay,50)` and then the invalid `(bogus,1)` fails but leaves
`delay := 50` applied. -/
theorem sockem_vset_error_keeps_earlier_pairs_witness :
    sockem_vset sockem_connect_default_conf
        [(str "delay", 50), (str "bogus", 1)]
      = (applyPairs sockem_connect_default_conf [(str "delay", 50)],
         false) :=
  sockem_vset_error_keeps_earlier_pairs [(str "delay", 50)]
    sockem_connect_default_conf (str "bogus") 1 []
    (by
      intro p hp c
      simp at hp
      rw [hp]
      simp [sockem_set0, str])
    (by
      intro c
      simp [sockem_set0, str, splitAtFirst])

/-- Claim C8: a single unknown key — one that is none of the recognized
key names (including the dummy `"true"`), is nonempty, and is not a
`key=value` token (contains no `'='`) — makes `sockem_set0` return an
error with any value, and a `sockem_vset` call on it returns an error
with the configuration unchanged. -/
theorem sockem_set0_unknown_key_error :
    ∀ (conf : sockem_conf) (key : List Char) (v : Int),
      key ∉ sockem_known_keys → key ≠ [] → key.contains '=' = false →
      sockem_set0 conf key v = none ∧
      sockem_vset conf [(key, v)] = (conf, false) := by
  intro conf key v hmem hne heq
  simp [sockem_known_keys] at hmem
  obtain ⟨h1, h2, h3, h4, h5, h6, h7, h8, h9⟩ := hmem
  have hsp : splitAtFirst '=' key = none :=
    splitAtFirst_none_of_not_contains heq
  have h0 : sockem_set0 conf key v = none := by
    rw [sockem_set0.eq_def]
    simp [h1, h2, h3, h4, h5, h6, h7, h8, h9, hne]
    intro _
    split
    all_goals simp_all
  exact ⟨h0, by simp [sockem_vset, h0]⟩

/-- Witness for `sockem_set0_unknown_key_error`: the unknown key
`"frobnicate"` fails and leaves the configuration unchanged. -/
theorem sockem_set0_unknown_key_error_witness :
    (str "frobnicate" ∉ sockem_known_keys ∧ str "frobnicate" ≠ ([] : List Char) ∧
      (str "frobnicate").contains '=' = false) ∧
    sockem_set0 sockem_connect_default_conf (str "frobnicate") 7 = none ∧
    sockem_vset sockem_connect_default_conf [(str "frobnicate", 7)]
      = (sockem_connect_default_conf, false) :=
  ⟨⟨by decide, by decide, by decide⟩,
   (sockem_set0_unknown_key_error sockem_connect_default_conf
      (str "frobnicate") 7 (by decide) (by decide) (by decide)).1,
   (sockem_set0_unknown_key_error sockem_connect_default_conf
      (str "frobnicate") 7 (by decide) (by decide) (by decide)).2⟩

/-- Claim C10 counterexample: `skm->conf.bufsz` is a `size_t`, so
setting `rx.bufsz` to -1 succeeds but stores the unsigned conversion
2^64 - 1, not the signed value -1: the setter does not store `v` as a
signed value for this key. -/
theorem sockem_set0_bufsz_unsigned_cex :
    (sockem_set0 sockem_connect_default_conf (str "rx.bufsz") (-1)).isSome
      = true ∧
    ((sockem_set0 sockem_connect_default_conf (str "rx.bufsz") (-1)).getD
        sockem_connect_default_conf).bufsz = 2 ^ 64 - 1 ∧
    ((2 ^ 64 - 1 : Nat) : Int) ≠ (-1 : Int) := by
  have h : sockem_set0 sockem_connect_default_conf (str "rx.bufsz") (-1)
      = some { sockem_connect_default_conf with bufsz := toSizeT (-1) } := by
    simp [sockem_set0, str]
  refine ⟨by rw [h]; rfl, by rw [h]; decide, by decide⟩

/-- Claim C10 as amended: the setter performs no range validation — for
every machine integer `v`, including negative values, setting `delay`,
`jitter`, `rx.thruput` or `tx.thruput` succeeds and stores `v` as a
signed value, setting `rx.bufsz` succeeds and stores `v` converted to
the unsigned size type (modulo 2^64), and the forwarder's per-chunk
sleep is computed from the possibly negative signed delay and jitter
values as `delay + jitter / 2` with C truncating division. -/
theorem sockem_set0_no_range_validation :
    ∀ (c : sockem_conf) (v : Int), -(2 ^ 31) ≤ v → v < 2 ^ 31 →
      sockem_set0 c (str "delay") v = some { c with delay := v } ∧
      sockem_set0 c (str "jitter") v = some { c with jitter := v } ∧
      sockem_set0 c (str "rx.thruput") v = some { c with rx_thruput := v } ∧
      sockem_set0 c (str "tx.thruput") v = some { c with tx_thruput := v } ∧
      sockem_set0 c (str "rx.bufsz") v = some { c with bufsz := toSizeT v } ∧
      sockem_fwd_delay { c with delay := v, jitter := v }
        = v + v.tdiv 2 := by
  intro c v _ _
  refine ⟨?_, ?_, ?_, ?_, ?_, ?_⟩ <;>
    simp [sockem_set0, str, sockem_fwd_delay]

/-- Witness for `sockem_set0_no_range_validation`: the negative value -5
is accepted for `delay` and, with jitter also -5, produces the negative
per-chunk sleep value -5 + tdiv (-5) 2 = -7. -/
theorem sockem_set0_no_range_validation_witness :
    (-(2 ^ 31) : Int) ≤ -5 ∧ (-5 : Int) < 2 ^ 31 ∧
    sockem_set0 sockem_connect_default_conf (str "delay") (-5)
      = some { sockem_connect_default_conf with delay := -5 } ∧
    sockem_fwd_delay
        { sockem_connect_default_conf with delay := -5, jitter := -5 }
      = -7 :=
  ⟨by decide, by decide,
   (sockem_set0_no_range_validation sockem_connect_default_conf (-5)
      (by decide) (by decide)).1,
   ((sockem_set0_no_range_validation sockem_connect_default_conf (-5)
      (by decide) (by decide)).2.2.2.2.2).trans (by decide)⟩

end Sockem
